import Mathlib

/-!
Verification development for an RSS article-crawling code base.

The repository contains several variants of the same crawler pipeline
(test.py, new.py, newest.py, claude.py, claudenew.py, qwenthing.py,
test5.py, ...).  This file shallowly embeds the data model and the
operations of those variants: pure Python functions become Lean
functions, network and DOM effects become explicit "world" parameters,
raised-and-caught exceptions become Except values, and datetimes become
an explicit record with an optional timezone offset.

Per the design document, the HTTP transport, the HTML/XML parsing
primitives and the on-disk JSON serialization mechanics are external
collaborator capabilities; they are modelled here by explicit parameters
(world records) and by a small executable JSON value type with a
serializer and a document reader.
-/

/-! ## JSON values (the persisted output format)

A minimal executable model of the JSON documents json.dump / json.load
handle: enough to represent the article records the crawlers persist and
to decide whether a concrete byte sequence is a single well-formed JSON
document. -/

inductive Json where
  | null : Json
  | bool (b : Bool) : Json
  | num (n : Int) : Json
  | str (s : String) : Json
  | arr (xs : List Json) : Json
  | obj (kvs : List (String × Json)) : Json

/-- Escape a string the way json.dumps does for the characters that need
it (quote, backslash and common control characters). -/
def jsonEscapeChar (c : Char) : String :=
  if c = '\"' then "\\\""
  else if c = '\\' then "\\\\"
  else if c = '\n' then "\\n"
  else if c = '\t' then "\\t"
  else if c = '\r' then "\\r"
  else String.singleton c

def jsonEscape (s : String) : String :=
  String.join (s.toList.map jsonEscapeChar)

mutual

/-- Serialization in the style of json.dumps with its default separators
(a comma-space between items, a colon-space after keys). -/
def dumpJson : Json → String
  | .null => "null"
  | .bool true => "true"
  | .bool false => "false"
  | .num n => toString n
  | .str s => "\"" ++ jsonEscape s ++ "\""
  | .arr xs => "[" ++ dumpJsonList xs ++ "]"
  | .obj kvs => String.singleton '\x7b' ++ dumpJsonKVs kvs ++ String.singleton '\x7d'

def dumpJsonList : List Json → String
  | [] => ""
  | [x] => dumpJson x
  | x :: y :: rest => dumpJson x ++ ", " ++ dumpJsonList (y :: rest)

def dumpJsonKVs : List (String × Json) → String
  | [] => ""
  | [(k, v)] => "\"" ++ jsonEscape k ++ "\": " ++ dumpJson v
  | (k, v) :: y :: rest =>
      "\"" ++ jsonEscape k ++ "\": " ++ dumpJson v ++ ", " ++ dumpJsonKVs (y :: rest)

end

/-! A fuel-indexed recursive-descent reader for JSON documents, used to
decide (on concrete inputs) whether a file's content is one fully
parseable document, as json.load demands. -/

def isJsonWs (c : Char) : Bool :=
  c = ' ' || c = '\n' || c = '\t' || c = '\r'

def skipWs : List Char → List Char
  | [] => []
  | c :: rest => if isJsonWs c then skipWs rest else c :: rest

def hexVal (c : Char) : Option Nat :=
  if '0' ≤ c && c ≤ '9' then some (c.toNat - 48)
  else if 'a' ≤ c && c ≤ 'f' then some (c.toNat - 87)
  else if 'A' ≤ c && c ≤ 'F' then some (c.toNat - 55)
  else none

def readStringBody (fuel : Nat) (cs : List Char) (acc : List Char) :
    Option (String × List Char) :=
  match fuel, cs with
  | 0, _ => none
  | _, [] => none
  | f + 1, c :: rest =>
    if c = '\"' then some (String.mk acc.reverse, rest)
    else if c = '\\' then
      match rest with
      | [] => none
      | e :: rest2 =>
        if e = '\"' then readStringBody f rest2 ('\"' :: acc)
        else if e = '\\' then readStringBody f rest2 ('\\' :: acc)
        else if e = '/' then readStringBody f rest2 ('/' :: acc)
        else if e = 'n' then readStringBody f rest2 ('\n' :: acc)
        else if e = 't' then readStringBody f rest2 ('\t' :: acc)
        else if e = 'r' then readStringBody f rest2 ('\r' :: acc)
        else if e = 'u' then
          match rest2 with
          | h1 :: h2 :: h3 :: h4 :: rest3 =>
            match hexVal h1, hexVal h2, hexVal h3, hexVal h4 with
            | some a, some b, some c1, some d =>
                readStringBody f rest3
                  (Char.ofNat (((a * 16 + b) * 16 + c1) * 16 + d) :: acc)
            | _, _, _, _ => none
          | _ => none
        else none
    else readStringBody f rest (c :: acc)

def readDigitsAcc (fuel : Nat) (acc : Nat) (cs : List Char) : Nat × List Char :=
  match fuel, cs with
  | 0, _ => (acc, cs)
  | _, [] => (acc, [])
  | f + 1, c :: rest =>
    if c.isDigit then readDigitsAcc f (acc * 10 + (c.toNat - 48)) rest
    else (acc, c :: rest)

mutual

def readJsonVal (fuel : Nat) (cs : List Char) : Option (Json × List Char) :=
  match fuel with
  | 0 => none
  | f + 1 =>
    match skipWs cs with
    | [] => none
    | c :: rest =>
      if c = '\x7b' then
        match skipWs rest with
        | '\x7d' :: rest2 => some (.obj [], rest2)
        | rest2 => readJsonMembers f rest2 []
      else if c = '[' then
        match skipWs rest with
        | ']' :: rest2 => some (.arr [], rest2)
        | rest2 => readJsonElems f rest2 []
      else if c = '\"' then
        match readStringBody (rest.length + 1) rest [] with
        | some (s, rest2) => some (.str s, rest2)
        | none => none
      else if c = 't' then
        match rest with
        | 'r' :: 'u' :: 'e' :: rest2 => some (.bool true, rest2)
        | _ => none
      else if c = 'f' then
        match rest with
        | 'a' :: 'l' :: 's' :: 'e' :: rest2 => some (.bool false, rest2)
        | _ => none
      else if c = 'n' then
        match rest with
        | 'u' :: 'l' :: 'l' :: rest2 => some (.null, rest2)
        | _ => none
      else if c = '-' then
        match rest with
        | d :: _ =>
          if d.isDigit then
            let (n, rest2) := readDigitsAcc rest.length 0 rest
            some (.num (-(n : Int)), rest2)
          else none
        | [] => none
      else if c.isDigit then
        let (n, rest2) := readDigitsAcc (cs.length + 1) 0 (c :: rest)
        some (.num (n : Int), rest2)
      else none

def readJsonMembers (fuel : Nat) (cs : List Char) (acc : List (String × Json)) :
    Option (Json × List Char) :=
  match fuel with
  | 0 => none
  | f + 1 =>
    match skipWs cs with
    | '\"' :: rest =>
      match readStringBody (rest.length + 1) rest [] with
      | some (k, rest2) =>
        match skipWs rest2 with
        | ':' :: rest3 =>
          match readJsonVal f rest3 with
          | some (v, rest4) =>
            match skipWs rest4 with
            | ',' :: rest5 => readJsonMembers f rest5 ((k, v) :: acc)
            | '\x7d' :: rest5 => some (.obj ((k, v) :: acc).reverse, rest5)
            | _ => none
          | none => none
        | _ => none
      | none => none
    | _ => none

def readJsonElems (fuel : Nat) (cs : List Char) (acc : List Json) :
    Option (Json × List Char) :=
  match fuel with
  | 0 => none
  | f + 1 =>
    match readJsonVal f cs with
    | some (v, rest) =>
      match skipWs rest with
      | ',' :: rest2 => readJsonElems f rest2 (v :: acc)
      | ']' :: rest2 => some (.arr (v :: acc).reverse, rest2)
      | _ => none
    | none => none

end

/-- json.load: the whole input must be one document, with nothing but
whitespace after it (otherwise json raises "Extra data"). -/
def parseJsonDoc (s : String) : Option Json :=
  match readJsonVal (2 * s.length + 8) s.toList with
  | some (v, rest) => if skipWs rest = [] then some v else none
  | none => none

/-- Field names of a JSON object, in order (json.dump preserves dict
insertion order). -/
def fieldNames : Json → List String
  | .obj kvs => kvs.map (fun kv => kv.1)
  | _ => []

/-- Look up a field of a JSON object. -/
def jsonField (j : Json) (k : String) : Option Json :=
  match j with
  | .obj kvs => (kvs.find? (fun kv => kv.1 == k)).map (fun kv => kv.2)
  | _ => none

/-! ## The persisted output file

new.py's append_to_json reads the whole file with json.load, appends the
new record to the decoded array and rewrites the file with json.dump.
The serialization mechanics themselves are the assumed external
capability, so the file is modelled by what it holds: a well-formed
document, malformed text, or nothing. -/

inductive FileState where
  | missing : FileState
  | doc (j : Json) : FileState
  | malformed (s : String) : FileState

namespace NewPy

/-- new.py append_to_json: if the file exists, json.load it; a
JSONDecodeError resets the decoded list to [].  The new article is
appended and the whole array rewritten.  If the decoded document is not
an array, the .append call raises AttributeError, which the surrounding
except swallows, leaving the file as it was. -/
def append_to_json (a : Json) (fs : FileState) : FileState :=
  match fs with
  | .missing => .doc (.arr [a])
  | .malformed _ => .doc (.arr [a])
  | .doc (.arr l) => .doc (.arr (l ++ [a]))
  | .doc j => .doc j

def appendAll (l : List Json) (fs : FileState) : FileState :=
  l.foldl (fun fs a => append_to_json a fs) fs

/-- Re-reading the output with json.load: succeeds exactly on a
well-formed array document. -/
def readRecords : FileState → Option (List Json)
  | .doc (.arr l) => some l
  | _ => none

/-- The record shape new.py's crawl_feed persists (dict insertion
order). -/
def mkArticle (title : String) (text : Option String) (description : String)
    (link : String) (published_date : Option String) (authors : List String)
    (category : String) (source_feed : String) : Json :=
  .obj [("title", .str title),
        ("text", match text with | some t => .str t | none => .null),
        ("description", .str description),
        ("link", .str link),
        ("published_date", match published_date with | some d => .str d | none => .null),
        ("authors", .arr (authors.map (fun a => .str a))),
        ("category", .str category),
        ("source_feed", .str source_feed)]

end NewPy

namespace TestFive

/-- test5.py save_article_incrementally: opens the output in append mode
and writes json.dumps(article) followed by a bare comma.  The file
content is the previous content with that text appended. -/
def save_article_incrementally (content : String) (a : Json) : String :=
  content ++ dumpJson a ++ ","

end TestFive

/-! ## Datetimes

A Python datetime is a civil timestamp together with an optional
timezone: tz = none models a naive datetime, tz = some off an aware one
whose utcoffset is off minutes.  Comparing a naive and an aware datetime
raises TypeError in Python; the comparison helpers below return an
Except value for that case. -/

structure PyDateTime where
  year : Nat
  month : Nat
  day : Nat
  hour : Nat
  minute : Nat
  second : Nat
  tz : Option Int
deriving DecidableEq, Repr

def isLeapYear (y : Nat) : Bool :=
  (y % 4 = 0 && y % 100 ≠ 0) || y % 400 = 0

/-- Cumulative day counts before each month (index 1..12) of a common
year. -/
def daysBeforeMonth (m : Nat) : Nat :=
  [0, 0, 31, 59, 90, 120, 151, 181, 212, 243, 273, 304, 334].getD m 0

/-- Number of leap years in 1..n. -/
def leapsThrough (n : Nat) : Nat :=
  n / 4 - n / 100 + n / 400

/-- Days since 1970-01-01 of a civil date (proleptic Gregorian, intended
for years ≥ 1970). -/
def daysSinceEpoch (y m d : Nat) : Int :=
  (365 * (y - 1970) + (leapsThrough (y - 1) - leapsThrough 1969)
    + daysBeforeMonth m
    + (if isLeapYear y && decide (m > 2) then 1 else 0)
    + (d - 1) : Nat)

/-- The instant of a datetime in seconds since the epoch; a naive
datetime is read as if its wall-clock fields were UTC (this is what
"treated as UTC, attached not converted" means for a naive value). -/
def toUtcSeconds (dt : PyDateTime) : Int :=
  daysSinceEpoch dt.year dt.month dt.day * 86400
    + dt.hour * 3600 + dt.minute * 60 + dt.second
    - (dt.tz.getD 0) * 60

def naiveAwareMsg : String :=
  "TypeError: cannot compare offset-naive and offset-aware datetimes"

/-- Python comparison dt >= bound where bound is an aware datetime at
instant boundEpoch: aware operands compare by instant; a naive left
operand raises TypeError. -/
def awareGE (dt : PyDateTime) (boundEpoch : Int) : Except String Bool :=
  match dt.tz with
  | some _ => .ok (decide (toUtcSeconds dt ≥ boundEpoch))
  | none => .error naiveAwareMsg

/-- Python comparison dt < bound against an aware bound (used by
claudenew.py's cutoff check); same TypeError behaviour. -/
def awareLT (dt : PyDateTime) (boundEpoch : Int) : Except String Bool :=
  match dt.tz with
  | some _ => .ok (decide (toUtcSeconds dt < boundEpoch))
  | none => .error naiveAwareMsg

/-! ## strptime for the format patterns the crawlers use

An executable model of datetime.strptime restricted to the four format
strings that occur in the sources.  Each parser consumes a character
list and enforces the same field ranges strptime's generated regex does
(day 1..31, hour ≤ 23, minute ≤ 59, second ≤ 61). -/

def dropLit : List Char → List Char → Option (List Char)
  | [], cs => some cs
  | _, [] => none
  | p :: ps, c :: cs => if p = c then dropLit ps cs else none

def weekdayNames : List String :=
  ["Mon", "Tue", "Wed", "Thu", "Fri", "Sat", "Sun"]

def monthNames : List String :=
  ["Jan", "Feb", "Mar", "Apr", "May", "Jun",
   "Jul", "Aug", "Sep", "Oct", "Nov", "Dec"]

/-- Match any of the given names as a prefix, returning its 1-based
index. -/
def matchName (names : List String) (k : Nat) (cs : List Char) :
    Option (Nat × List Char) :=
  match names with
  | [] => none
  | n :: rest =>
    match dropLit n.toList cs with
    | some cs2 => some (k, cs2)
    | none => matchName rest (k + 1) cs

/-- Read 1..maxD digits greedily (at least one). -/
def readNum (maxD : Nat) (cs : List Char) : Option (Nat × List Char) :=
  match cs with
  | c :: _ => if c.isDigit then some (readDigitsAcc maxD 0 cs) else none
  | [] => none

/-- %z: a numeric UTC offset like +0530, -0800 or +05:30 (or Z),
yielding minutes. -/
def readTzOffset (cs : List Char) : Option (Int × List Char) :=
  match cs with
  | 'Z' :: rest => some (0, rest)
  | s :: c1 :: c2 :: rest =>
    if (s = '+' || s = '-') && c1.isDigit && c2.isDigit then
      let hh := (c1.toNat - 48) * 10 + (c2.toNat - 48)
      let rest2 := match rest with
        | ':' :: r => r
        | r => r
      match rest2 with
      | d1 :: d2 :: rest3 =>
        if d1.isDigit && d2.isDigit then
          let mm := (d1.toNat - 48) * 10 + (d2.toNat - 48)
          if mm < 60 then
            let total : Int := (hh * 60 + mm : Nat)
            some (if s = '-' then -total else total, rest3)
          else none
        else none
      | _ => none
    else none
  | _ => none

/-- Range validation as in strptime's regex. -/
def mkDT (y mo d h mi s : Nat) (tz : Option Int) : Option PyDateTime :=
  if 1 ≤ mo && mo ≤ 12 && 1 ≤ d && d ≤ 31 && h ≤ 23 && mi ≤ 59 && s ≤ 61 then
    some ⟨y, mo, d, h, mi, s, tz⟩
  else none

/-- "%a, %d %b %Y %H:%M:%S %z" (RFC-822 style with a numeric offset). -/
def parseRfc822z (str : String) : Option PyDateTime :=
  match matchName weekdayNames 1 str.toList with
  | none => none
  | some (_, cs) =>
  match dropLit [',', ' '] cs with
  | none => none
  | some cs =>
  match readNum 2 cs with
  | none => none
  | some (d, cs) =>
  match dropLit [' '] cs with
  | none => none
  | some cs =>
  match matchName monthNames 1 cs with
  | none => none
  | some (mo, cs) =>
  match dropLit [' '] cs with
  | none => none
  | some cs =>
  match readNum 4 cs with
  | none => none
  | some (y, cs) =>
  match dropLit [' '] cs with
  | none => none
  | some cs =>
  match readNum 2 cs with
  | none => none
  | some (h, cs) =>
  match dropLit [':'] cs with
  | none => none
  | some cs =>
  match readNum 2 cs with
  | none => none
  | some (mi, cs) =>
  match dropLit [':'] cs with
  | none => none
  | some cs =>
  match readNum 2 cs with
  | none => none
  | some (s, cs) =>
  match dropLit [' '] cs with
  | none => none
  | some cs =>
  match readTzOffset cs with
  | none => none
  | some (off, cs) =>
  if cs = [] then mkDT y mo d h mi s (some off) else none

/-- "%Y-%m-%dT%H:%M:%S%z" (ISO-8601 with a numeric offset). -/
def parseIsoZ (str : String) : Option PyDateTime :=
  match readNum 4 str.toList with
  | none => none
  | some (y, cs) =>
  match dropLit ['-'] cs with
  | none => none
  | some cs =>
  match readNum 2 cs with
  | none => none
  | some (mo, cs) =>
  match dropLit ['-'] cs with
  | none => none
  | some cs =>
  match readNum 2 cs with
  | none => none
  | some (d, cs) =>
  match dropLit ['T'] cs with
  | none => none
  | some cs =>
  match readNum 2 cs with
  | none => none
  | some (h, cs) =>
  match dropLit [':'] cs with
  | none => none
  | some cs =>
  match readNum 2 cs with
  | none => none
  | some (mi, cs) =>
  match dropLit [':'] cs with
  | none => none
  | some cs =>
  match readNum 2 cs with
  | none => none
  | some (s, cs) =>
  match readTzOffset cs with
  | none => none
  | some (off, cs) =>
  if cs = [] then mkDT y mo d h mi s (some off) else none

/-- "%Y-%m-%d %H:%M:%S" (space-separated, no offset: the result is a
naive datetime). -/
def parseSpaceNaive (str : String) : Option PyDateTime :=
  match readNum 4 str.toList with
  | none => none
  | some (y, cs) =>
  match dropLit ['-'] cs with
  | none => none
  | some cs =>
  match readNum 2 cs with
  | none => none
  | some (mo, cs) =>
  match dropLit ['-'] cs with
  | none => none
  | some cs =>
  match readNum 2 cs with
  | none => none
  | some (d, cs) =>
  match dropLit [' '] cs with
  | none => none
  | some cs =>
  match readNum 2 cs with
  | none => none
  | some (h, cs) =>
  match dropLit [':'] cs with
  | none => none
  | some cs =>
  match readNum 2 cs with
  | none => none
  | some (mi, cs) =>
  match dropLit [':'] cs with
  | none => none
  | some cs =>
  match readNum 2 cs with
  | none => none
  | some (s, cs) =>
  if cs = [] then mkDT y mo d h mi s none else none

/-- "%a, %d %b %Y %H:%M:%S %Z": %Z matches a timezone *name* (UTC, GMT);
CPython's strptime records the name but leaves the resulting datetime
naive (only %z attaches a tzinfo). -/
def parseRfc822Name (str : String) : Option PyDateTime :=
  match matchName weekdayNames 1 str.toList with
  | none => none
  | some (_, cs) =>
  match dropLit [',', ' '] cs with
  | none => none
  | some cs =>
  match readNum 2 cs with
  | none => none
  | some (d, cs) =>
  match dropLit [' '] cs with
  | none => none
  | some cs =>
  match matchName monthNames 1 cs with
  | none => none
  | some (mo, cs) =>
  match dropLit [' '] cs with
  | none => none
  | some cs =>
  match readNum 4 cs with
  | none => none
  | some (y, cs) =>
  match dropLit [' '] cs with
  | none => none
  | some cs =>
  match readNum 2 cs with
  | none => none
  | some (h, cs) =>
  match dropLit [':'] cs with
  | none => none
  | some cs =>
  match readNum 2 cs with
  | none => none
  | some (mi, cs) =>
  match dropLit [':'] cs with
  | none => none
  | some cs =>
  match readNum 2 cs with
  | none => none
  | some (s, cs) =>
  match dropLit [' '] cs with
  | none => none
  | some cs =>
  match matchName ["UTC", "GMT"] 1 cs with
  | none => none
  | some (_, cs) =>
  if cs = [] then mkDT y mo d h mi s none else none

/-- The four format patterns of test.py's parse_date, in source order. -/
inductive Fmt where
  | rfc822z : Fmt
  | isoZ : Fmt
  | spaceNaive : Fmt
  | rfc822Name : Fmt
deriving DecidableEq, Repr

def parseFmt : Fmt → String → Option PyDateTime
  | .rfc822z, s => parseRfc822z s
  | .isoZ, s => parseIsoZ s
  | .spaceNaive, s => parseSpaceNaive s
  | .rfc822Name, s => parseRfc822Name s

/-! ## Feed entries

A feedparser entry with the optional fields the crawlers read.  An
Option field models hasattr: none means the attribute is absent.
feedparser's entry.content is a list of content objects; its elements
are modelled by their .value HTML strings. -/

structure Entry where
  title : String := ""
  link : String := ""
  published : Option String := none
  updated : Option String := none
  pubDate : Option String := none
  description : String := ""
  category : String := ""
  authors : List String := []
  content : Option (List String) := none
  content_encoded : Option String := none
deriving DecidableEq, Repr

/-- A parsed feed as feedparser returns it: entries, a version attribute
(none models a missing attribute, some "" an unrecognized format) and
the bozo malformed-input flag. -/
structure ParsedFeed where
  entries : List Entry := []
  version : Option String := none
  bozo : Bool := false
deriving DecidableEq, Repr

namespace Test

/-- test.py parse_date's date_formats list, in source order. -/
def date_formats : List Fmt :=
  [.rfc822z, .isoZ, .spaceNaive, .rfc822Name]

/-- The inner loop of test.py parse_date: try each format with strptime,
returning the first success (the per-format except swallows the
failure and continues). -/
def tryFormats : List Fmt → String → Option PyDateTime
  | [], _ => none
  | f :: rest, s =>
    match parseFmt f s with
    | some d => some d
    | none => tryFormats rest s

/-- test.py RSSCrawler.parse_date. -/
def parse_date (s : String) : Option PyDateTime :=
  tryFormats date_formats s

/-- The date-field loop of test.py crawl_feed (lines 172-177): for each
field name in ['published', 'updated', 'pubDate'], if the entry has the
attribute, parse it; break on the first field whose value parses. -/
def fieldLoop (e : Entry) : List (Entry → Option String) → Option PyDateTime
  | [] => none
  | g :: rest =>
    match g e with
    | none => fieldLoop e rest
    | some s =>
      match parse_date s with
      | some d => some d
      | none => fieldLoop e rest

def entryPubDate (e : Entry) : Option PyDateTime :=
  fieldLoop e [(fun e => e.published), (fun e => e.updated), (fun e => e.pubDate)]

/-- test.py RSSCrawler.is_within_days_limit: False when pub_date is
falsy, else the Python comparison pub_date >= now - timedelta(days);
now is timezone-aware UTC, so a naive pub_date raises TypeError. -/
def is_within_days_limit (pub : Option PyDateTime) (nowEpoch : Int)
    (daysLimit : Nat) : Except String Bool :=
  match pub with
  | none => .ok false
  | some dt => awareGE dt (nowEpoch - (daysLimit : Int) * 86400)

/-- test.py RSSCrawler.is_valid_feed, with feedparser.parse supplied as
a capability: bool(feed.entries) and hasattr(feed, 'version') and
feed.version != ''.  The try/except makes it total. -/
def is_valid_feed (parseFeed : String → ParsedFeed) (url : String) : Bool :=
  let feed := parseFeed url
  !feed.entries.isEmpty
    && (match feed.version with
        | some v => v != ""
        | none => false)

end Test

namespace NewPy

/-- new.py parse_date: a single strptime format
"%a, %d %b %Y %H:%M:%S %z"; any failure yields None. -/
def parse_date (s : String) : Option PyDateTime :=
  parseRfc822z s

/-- new.py is_within_last_two_days: False when pub_date is falsy, else
pub_date >= now - timedelta(days=2) against an aware UTC now. -/
def is_within_last_two_days (pub : Option PyDateTime) (nowEpoch : Int) :
    Except String Bool :=
  match pub with
  | none => .ok false
  | some dt => awareGE dt (nowEpoch - 2 * 86400)

end NewPy

namespace ClaudeNew

/-- claudenew.py RSSCrawler.parse_date: delegate to dateutil
(a capability, passed as du); if the result is naive, attach UTC with
replace(tzinfo=timezone.utc) — the civil fields are untouched.  Any
exception yields None. -/
def parse_date (du : String → Option PyDateTime) (s : String) :
    Option PyDateTime :=
  match du s with
  | none => none
  | some dt =>
    match dt.tz with
    | some _ => some dt
    | none => some { dt with tz := some 0 }

end ClaudeNew

/-- The date choice the claim describes, written from its words for
comparison ("date parsing uses the first populated field in the priority
order published, then updated, then pubDate"): only the first populated
field is parsed. -/
def claimEntryPubDate (e : Entry) : Option PyDateTime :=
  match e.published with
  | some s => Test.parse_date s
  | none =>
    match e.updated with
    | some s => Test.parse_date s
    | none =>
      match e.pubDate with
      | some s => Test.parse_date s
      | none => none

/-! ## Text extraction

BeautifulSoup's get_text(separator, strip=True) over flat HTML is
modelled by cutting the markup between angle brackets, trimming each
text fragment, dropping the empty ones and joining with the separator
(the assumed DOM strip-text capability). -/

def dropWhileWs : List Char → List Char
  | [] => []
  | c :: rest => if c.isWhitespace then dropWhileWs rest else c :: rest

/-- str.strip(): trim leading and trailing whitespace. -/
def stripStr (s : String) : String :=
  String.mk ((dropWhileWs (dropWhileWs s.toList).reverse).reverse)

def htmlFragments : List Char → Bool → List Char → List String
  | [], _, cur =>
      if cur = [] then [] else [String.mk cur.reverse]
  | c :: rest, true, cur =>
      if c = '>' then htmlFragments rest false cur
      else htmlFragments rest true cur
  | c :: rest, false, cur =>
      if c = '<' then
        if cur = [] then htmlFragments rest true []
        else String.mk cur.reverse :: htmlFragments rest true []
      else htmlFragments rest false (c :: cur)

def soupGetText (sep : String) (htm : String) : String :=
  String.intercalate sep
    (((htmlFragments htm.toList false []).map stripStr).filter
      (fun s => s ≠ ""))

def splitWsAux : List Char → List Char → List String
  | [], cur => [String.mk cur.reverse]
  | c :: rest, cur =>
    if c.isWhitespace then String.mk cur.reverse :: splitWsAux rest []
    else splitWsAux rest (c :: cur)

/-- re.sub(r'\s+', ' ', text).strip(). -/
def wsCollapse (s : String) : String :=
  String.intercalate " "
    ((splitWsAux s.toList []).filter (fun p => p ≠ ""))

/-- A fetched article page, through the DOM capability: the (already
stripped) text of the first node matching each selector after the
unwanted elements are removed, and the stripped texts of the page's
paragraph elements. -/
structure DomPage where
  selText : String → Option String := fun _ => none
  paragraphs : List String := []

namespace Newest

/-- The network world newest.py extract_article_text runs against:
NewsPlease.from_url per link (none: no article, no text or a raise) and
requests.get per link (error: any request exception). -/
structure World where
  np : String → Option String := fun _ => none
  page : String → Except Unit DomPage := fun _ => .error ()

def content_selectors : List String :=
  ["div.article",
   "div[id*=\"content-body\"]",
   "div.article-text",
   "div[itemprop=\"articleBody\"]",
   "div.story-content",
   "div.content_text"]

/-- newest.py's selector loop: the first selector whose node exists and
has non-empty stripped text wins (an empty text falls through). -/
def selFirst (p : DomPage) : List String → Option String
  | [] => none
  | s :: rest =>
    match p.selText s with
    | some t => if t ≠ "" then some t else selFirst p rest
    | none => selFirst p rest

/-- Methods 3 and 4 of newest.py extract_article_text (both fetch the
entry's link; k counts fetches already made).  Method 3: NewsPlease;
method 4: requests + selectors + the all-paragraphs fallback.  A raise
anywhere is caught by the function's except and yields None. -/
def fetchStages (w : World) (link : String) (k : Nat) : Option String × Nat :=
  let afterNp : Option String × Nat :=
    match w.page link with
    | .error _ => (none, k + 2)
    | .ok p =>
      match selFirst p content_selectors with
      | some t => (some t, k + 2)
      | none =>
        match p.paragraphs with
        | [] => (none, k + 2)
        | ps =>
          let t := wsCollapse (String.intercalate " " (ps.map stripStr))
          (if t = "" then none else some t, k + 2)
  match w.np link with
  | some t => if t ≠ "" then (some t, k + 1) else afterNp
  | none => afterNp

/-- newest.py extract_article_text, instrumented with a fetch counter
(NewsPlease.from_url and requests.get each count as one network request
to the entry's link).  Methods 1 and 2 use the feed's inline content
and issue no fetch. -/
def extract_article_text (w : World) (e : Entry) : Option String × Nat :=
  match e.content with
  | some (h :: _) => (some (soupGetText " " h), 0)
  | _ =>
    match e.content_encoded with
    | some s =>
      if s ≠ "" then (some (soupGetText " " s), 0)
      else fetchStages w e.link 0
    | none => fetchStages w e.link 0

end Newest

/-- Zero-padded two-digit rendering, for datetime.isoformat. -/
def pad2 (n : Nat) : String :=
  if n < 10 then "0" ++ toString n else toString n

/-- datetime.isoformat() for whole-second datetimes: naive values have
no suffix, aware values get a +HH:MM / -HH:MM offset. -/
def isoFormat (dt : PyDateTime) : String :=
  toString dt.year ++ "-" ++ pad2 dt.month ++ "-" ++ pad2 dt.day ++ "T"
    ++ pad2 dt.hour ++ ":" ++ pad2 dt.minute ++ ":" ++ pad2 dt.second
    ++ (match dt.tz with
        | none => ""
        | some off =>
          (if off < 0 then "-" else "+")
            ++ pad2 (off.natAbs / 60) ++ ":" ++ pad2 (off.natAbs % 60))

namespace Newest

/-- The record newest.py crawl_feed builds (dict insertion order); text
is null when extraction produced nothing. -/
def articleJson (e : Entry) (text : Option String) (pub : Option PyDateTime)
    (feed_url : String) : Json :=
  .obj [("title", .str e.title),
        ("text", match text with | some t => .str t | none => .null),
        ("description", .str e.description),
        ("link", .str e.link),
        ("published_date",
          match pub with | some d => .str (isoFormat d) | none => .null),
        ("authors", .arr (e.authors.map (fun a => .str a))),
        ("category", .str e.category),
        ("source_feed", .str feed_url)]

/-- newest.py crawl_feed over one feed's entries: parse the published
field (new.py's parse_date), drop entries outside the 2-day window,
extract text, and append the record to the output file *whether or not
any text was extracted*.  A raise inside the per-entry try (e.g. the
naive/aware TypeError) skips the entry. -/
def crawl_feed (w : World) (feed_url : String) (nowEpoch : Int)
    (entries : List Entry) (fs : FileState) : FileState × Nat :=
  entries.foldl
    (fun st e =>
      let pub := match e.published with
        | some s => NewPy.parse_date s
        | none => none
      match NewPy.is_within_last_two_days pub nowEpoch with
      | .error _ => st
      | .ok false => st
      | .ok true =>
        let t := (extract_article_text w e).1
        (NewPy.append_to_json (articleJson e t pub feed_url) st.1, st.2 + 1))
    (fs, 0)

end Newest

namespace Test

/-- The network world of test.py extract_article_content: NewsPlease
per URL (error: a raise, which aborts the whole function; ok none: no
article or falsy text continues to method 2) and requests.get per URL. -/
structure World where
  np : String → Except Unit (Option String) := fun _ => .ok none
  page : String → Except Unit DomPage := fun _ => .error ()

def selectors : List String :=
  ["article",
   ".article-content",
   ".story-content",
   "[itemprop=\"articleBody\"]",
   ".entry-content",
   "#content-body",
   ".story__content",
   ".article__body",
   ".article-text"]

/-- test.py's selector loop keeps the last matched text in its content
variable and breaks only when one exceeds 100 characters; a matched but
short text stays assigned while later selectors are still tried. -/
def selLoop (p : DomPage) : List String → Option String → Option String
  | [], acc => acc
  | s :: rest, acc =>
    match p.selText s with
    | none => selLoop p rest acc
    | some t => if t.length > 100 then some t else selLoop p rest (some t)

/-- The paragraph fallback: join the stripped paragraph texts longer
than 50 characters with blank lines. -/
def paraFallback (p : DomPage) : String :=
  String.intercalate "\n\n" (p.paragraphs.filter (fun t => t.length > 50))

def truthyOpt : Option String → Bool
  | some t => t ≠ ""
  | none => false

/-- test.py RSSCrawler.extract_article_content: NewsPlease first, then
the selector scan, then the paragraph fallback; one try wraps the whole
body, so any raise returns None, and "return content if content else
None" maps an empty final string to None. -/
def extract_article_content (w : World) (url : String) : Option String :=
  let afterNp : Option String :=
    match w.page url with
    | .error _ => none
    | .ok p =>
      let c := selLoop p selectors none
      let final := if truthyOpt c then c.getD "" else paraFallback p
      if final = "" then none else some final
  match w.np url with
  | .error _ => none
  | .ok (some t) => if t ≠ "" then some t else afterNp
  | .ok none => afterNp

/-- The persisted record of test.py crawl_feed. -/
structure Article where
  title : String
  text : String
  description : String
  link : String
  published_date : Option PyDateTime
  authors : List String
  category : String
  source_feed : String
  source_domain : String
deriving DecidableEq, Repr

/-- One iteration of test.py crawl_feed's entry loop: date-field
selection, the recency gate (whose naive/aware TypeError is caught by
the per-entry except and skips the entry), extraction, and the
"if article_text:" guard before the record is appended. -/
def processEntry (w : World) (feed_url domain : String) (nowEpoch : Int)
    (daysLimit : Nat) (e : Entry) : Option Article :=
  let pub := entryPubDate e
  match is_within_days_limit pub nowEpoch daysLimit with
  | .error _ => none
  | .ok false => none
  | .ok true =>
    match extract_article_content w e.link with
    | some t =>
      if t ≠ "" then
        some { title := e.title, text := t, description := e.description,
               link := e.link, published_date := pub, authors := e.authors,
               category := e.category, source_feed := feed_url,
               source_domain := domain }
      else none
    | none => none

/-- test.py RSSCrawler.crawl_feed over a feed's entries. -/
def crawl_feed (w : World) (feed_url domain : String) (nowEpoch : Int)
    (daysLimit : Nat) (entries : List Entry) : List Article :=
  entries.filterMap (processEntry w feed_url domain nowEpoch daysLimit)

end Test

namespace ClaudePy

/-- The root page as discover_feeds sees it: the hrefs of the link
elements whose type attribute contains rss or atom. -/
structure RootPage where
  feedLinkHrefs : List String := []

/-- The network world of claude.py discover_feeds: the root fetch
(error: requests.RequestException) and a probe per common path giving
status code and content-type. -/
structure World where
  rootFetch : Except String RootPage := .error "connection error"
  probe : String → Except Unit (Nat × String) := fun _ => .error ()

def common_paths : List String :=
  ["/feed", "/rss", "/feed/rss", "/rss.xml", "/atom.xml", "/feed.xml"]

/-- urljoin against the (already '/'-stripped) root for the href shapes
that occur here: absolute URLs pass through, paths are attached. -/
def urljoinModel (root path : String) : String :=
  match dropLit ['h', 't', 't', 'p'] path.toList with
  | some _ => path
  | none => root ++ path

def containsSeq (hay pat : List Char) : Bool :=
  match hay with
  | [] => pat.isEmpty
  | _ :: rest => (dropLit pat hay).isSome || containsSeq rest pat

def containsSub (s pat : String) : Bool :=
  containsSeq s.toList pat.toList

/-- The common-path probe loop: each iteration is guarded by
"if not feed_urls", so once the list is non-empty nothing more is
added; a probe is kept when its status is 200 and its content-type
contains "xml"; a RequestException just continues. -/
def probeLoop (w : World) (root : String) (acc : List String) :
    List String → List String
  | [] => acc
  | p :: rest =>
    if acc.isEmpty then
      match w.probe p with
      | .ok (st, ct) =>
        if st == 200 && containsSub ct "xml" then
          probeLoop w root (acc ++ [urljoinModel root p]) rest
        else probeLoop w root acc rest
      | .error _ => probeLoop w root acc rest
    else acc

/-- claude.py RSSCrawler.discover_feeds: on a RequestException from the
root fetch, log and return the empty list (non-fatal); otherwise
collect the feed link hrefs and, if none, probe the common paths. -/
def discover_feeds (w : World) (root : String) : List String :=
  match w.rootFetch with
  | .error _ => []
  | .ok page =>
    let fromLinks := page.feedLinkHrefs.map (urljoinModel root)
    probeLoop w root fromLinks common_paths

/-- The rate limiter's state in idealized integer time: the current
clock and the shared last_request_time (initialized to 0 in
RSSCrawler.__init__). -/
structure RL where
  clock : Int
  last : Int
deriving DecidableEq, Repr

/-- claude.py RSSCrawler._respect_rate_limit: if less than rate_limit
has elapsed since the last request, sleep the difference; then record
the (post-sleep) time as last_request_time.  The returned clock is the
moment the following request starts. -/
def respect_rate_limit (r : Int) (s : RL) : RL :=
  if s.clock - s.last < r then
    { clock := s.last + r, last := s.last + r }
  else
    { clock := s.clock, last := s.clock }

/-- Advance the clock without touching the limiter (time spent parsing,
extracting, etc.). -/
def elapse (s : RL) (d : Int) : RL :=
  { s with clock := s.clock + d }

/-- Request start times of claude.py process_feed for one feed on one
worker, per entry: entries with inline content make no request; the
others go through _respect_rate_limit before the page fetch. -/
def pageFetchTimes (r : Int) : List Bool → RL → List Int × RL
  | [], s => ([], s)
  | hasContent :: rest, s =>
    if hasContent then pageFetchTimes r rest s
    else
      let s1 := respect_rate_limit r s
      let (ts, s2) := pageFetchTimes r rest s1
      (s1.clock :: ts, s2)

/-- claude.py process_feed: the feed fetch itself
(feedparser.parse(feed_url), line 125) is an outbound HTTP request
issued WITHOUT a _respect_rate_limit call; then the entry loop. -/
def process_feed_requests (r : Int) (s : RL) (entries : List Bool) :
    List Int × RL :=
  let (ts, s2) := pageFetchTimes r entries s
  (s.clock :: ts, s2)

/-- One single-worker run fragment: discover_feeds' rate-limited root
fetch from the initial state (last_request_time = 0, clock = c0),
immediately followed by process_feed on one feed.  Returns every
outbound request's start time in order. -/
def run_requests (r : Int) (c0 : Int) (entries : List Bool) : List Int :=
  let s1 := respect_rate_limit r { clock := c0, last := 0 }
  s1.clock :: (process_feed_requests r s1 entries).1

end ClaudePy

namespace Qwen

/-- qwenthing.py fetch_rss_feed: feedparser.parse the URL; a bozo feed
raises, the except logs and calls sys.exit(1).  The error branch is the
process exiting with status 1. -/
def fetch_rss_feed (f : ParsedFeed) : Except Nat ParsedFeed :=
  if f.bozo then .error 1 else .ok f

end Qwen

namespace ClaudePy

/-- claude.py process_feed's content resolution for one entry (lines
138-143), instrumented with a fetch counter: when the entry has a
content attribute, the raw entry.content[0].value is stored directly —
no markup stripping, no whitespace normalization, and no request (an
empty content list raises IndexError into the feed-level handler);
otherwise extract_article_content fetches the entry's page, one
request, with the page's extracted text supplied as a capability. -/
def entryContent (fetchPage : String → String) (e : Entry) :
    Except Unit (String × Nat) :=
  match e.content with
  | some (h :: _) => .ok (h, 0)
  | some [] => .error ()
  | none => .ok (fetchPage e.link, 1)

end ClaudePy

/-! ## Concrete inputs used by the counterexamples and witnesses -/

/-- An entry whose published date is recent but whose article text
resolves nowhere: no inline content, NewsPlease finds nothing, the page
fetch fails. -/
def entryNoText : Entry :=
  { title := "t0", link := "l0",
    published := some "Mon, 01 Jan 2024 00:00:00 +0000" }

def newestWorld0 : Newest.World := {}

/-- 2024-01-01T00:00:00+00:00 as seconds since the epoch. -/
def now0 : Int := 1704067200

/-- An entry whose text extraction succeeds through NewsPlease. -/
def entryWithText : Entry :=
  { title := "t1", link := "l1",
    published := some "Mon, 01 Jan 2024 00:00:00 +0000" }

def testWorld1 : Test.World := { np := fun _ => .ok (some "B") }

/-- The record test.py's crawl_feed produces for entryWithText. -/
def rec1 : Test.Article :=
  { title := "t1", text := "B", description := "", link := "l1",
    published_date := some ⟨2024, 1, 1, 0, 0, 0, some 0⟩, authors := [],
    category := "", source_feed := "f1", source_domain := "d1" }

/-- A concrete test5.py article record (NewsPlease field shape). -/
def a5demo : Json :=
  .obj [("title", .str "T"), ("text", .str "body"), ("url", .str "u"),
        ("authors", .arr []), ("date_publish", .null),
        ("language", .str "en"), ("description", .str "d")]

/-- "2024-01-02 03:04:05" parsed by the space-separated naive format. -/
def dtNaive3 : PyDateTime := ⟨2024, 1, 2, 3, 4, 5, none⟩

/-- A reference time equal to dtNaive3's wall clock read as UTC, so the
entry is squarely inside every positive window. -/
def now3 : Int := 1704164645

/-- "2024-05-05 10:00:00" parsed by the space-separated naive format. -/
def dtNaive6 : PyDateTime := ⟨2024, 5, 5, 10, 0, 0, none⟩

/-- A dateutil capability returning a naive datetime, as for a date
string without timezone information. -/
def duNaive : String → Option PyDateTime := fun _ => some dtNaive6

/-- An entry whose first populated date field does not parse while its
second one does. -/
def ex7 : Entry :=
  { published := some "garbage",
    updated := some "Mon, 01 Jan 2024 08:30:00 +0000" }

def dt7 : PyDateTime := ⟨2024, 1, 1, 8, 30, 0, some 0⟩

/-- An entry carrying feed-declared inline HTML content. -/
def e8 : Entry := { content := some ["<p>Hello <b>world</b></p>"] }

def w8 : Newest.World := {}

/-- A world whose root fetch raises a RequestException. -/
def failWorld : ClaudePy.World := {}

/-- A malformed feed: feedparser sets bozo. -/
def bozoFeed : ParsedFeed := { bozo := true }

/-- A second malformed feed, with an unrecognized version attribute. -/
def bozoFeed2 : ParsedFeed := { bozo := true, version := some "" }

/-- An unreachable URL's parse result: bozo, no entries, empty
version. -/
def unreachableParse : String → ParsedFeed :=
  fun _ => { entries := [], version := some "", bozo := true }

/-! ## Theorems -/

/-- Appending one record at a time to a well-formed array document
keeps it a well-formed array holding the accumulated records. -/
theorem foldl_append_doc_arr (l acc : List Json) :
    List.foldl (fun fs a => NewPy.append_to_json a fs) (.doc (.arr acc)) l
      = .doc (.arr (acc ++ l)) := by
  induction l generalizing acc with
  | nil => simp
  | cons x xs ih => simpa using ih (acc ++ [x])

/-- C10: when the existing output file holds unparseable JSON,
new.py's append_to_json does not raise (the JSONDecodeError is caught
and the decoded list reset to []): the file is rewritten as an array
holding only the newly appended record, silently discarding whatever
the file held before. -/
theorem append_on_malformed_resets_to_single (s : String) (a : Json) :
    NewPy.append_to_json a (.malformed s) = .doc (.arr [a]) := rfl

/-- C2 (amended): under new.py's read-modify-write discipline, starting
from the empty array the run's main writes, after appending any list of
records the output is a well-formed array document holding exactly the
records appended so far, json.load recovers exactly them, and every
record built by crawl_feed's dict carries the stable field list. -/
theorem newpy_incremental_roundtrip (l : List Json) :
    NewPy.appendAll l (.doc (.arr [])) = .doc (.arr l) ∧
    NewPy.readRecords (NewPy.appendAll l (.doc (.arr []))) = some l ∧
    (∀ t tx d lk pd au c sf,
      fieldNames (NewPy.mkArticle t tx d lk pd au c sf) =
        ["title", "text", "description", "link", "published_date",
         "authors", "category", "source_feed"]) := by
  have h : NewPy.appendAll l (.doc (.arr [])) = .doc (.arr l) := by
    simpa using foldl_append_doc_arr l []
  exact ⟨h, by rw [h]; rfl, fun t tx d lk pd au c sf => rfl⟩

/-- C2 (counterexample): test5.py's incremental discipline appends
json.dumps(record) plus a bare comma to the file, so already after the
first append the (non-empty) output file is not a parseable JSON
document — json.load fails on it, although the record alone is a
perfectly parseable document. -/
theorem testfive_append_output_unparseable :
    parseJsonDoc (TestFive.save_article_incrementally "" a5demo) = none ∧
    TestFive.save_article_incrementally "" a5demo ≠ "" ∧
    parseJsonDoc (dumpJson a5demo) = some a5demo := by
  refine ⟨rfl, by decide, rfl⟩

/-- C1 (counterexample): newest.py's crawl_feed persists a record even
when the content extraction yields no usable text: for a recent entry
with no inline content, no NewsPlease result and a failing page fetch,
the run appends a record whose text field is null. -/
theorem newest_persists_null_text_record :
    (Newest.crawl_feed newestWorld0 "f0" now0 [entryNoText]
        (.doc (.arr []))).1 =
      .doc (.arr [Json.obj
        [("title", .str "t0"), ("text", Json.null),
         ("description", .str ""), ("link", .str "l0"),
         ("published_date", .str "2024-01-01T00:00:00+00:00"),
         ("authors", .arr []), ("category", .str ""),
         ("source_feed", .str "f0")]]) ∧
    jsonField (Newest.articleJson entryNoText none
        (some ⟨2024, 1, 1, 0, 0, 0, some 0⟩) "f0") "text" = some Json.null := by
  exact ⟨rfl, rfl⟩

/-- C1 (amended): in test.py's crawl_feed, the "if article_text:" guard
ensures a record is appended only when extraction produced non-empty
text; every record in the persisted output of any run has a non-empty
text field. -/
theorem test_crawl_persists_only_nonempty_text
    (w : Test.World) (feed_url domain : String) (nowEpoch : Int)
    (daysLimit : Nat) (entries : List Entry) (rec : Test.Article)
    (h : rec ∈ Test.crawl_feed w feed_url domain nowEpoch daysLimit entries) :
    rec.text ≠ "" := by
  rcases List.mem_filterMap.mp h with ⟨e, _, hp⟩
  simp only [Test.processEntry] at hp
  split at hp
  · exact absurd hp (by simp)
  · exact absurd hp (by simp)
  · split at hp
    · split at hp
      · cases hp
        assumption
      · exact absurd hp (by simp)
    · exact absurd hp (by simp)

/-- C1 (witness): a concrete run of test.py's crawl_feed persisting one
record, whose text is non-empty by the theorem. -/
theorem test_crawl_nonempty_text_witness : rec1.text ≠ "" :=
  test_crawl_persists_only_nonempty_text testWorld1 "f1" "d1" now0 2
    [entryWithText] rec1
    (by
      have h : Test.crawl_feed testWorld1 "f1" "d1" now0 2 [entryWithText]
          = [rec1] := rfl
      rw [h]
      exact List.mem_singleton_self rec1)

/-- C3 (amended): the recency gates of test.py and new.py exclude an
entry with no parsed timestamp, and for an aware timestamp keep it
exactly when its instant is at least now minus the window, inclusive at
the boundary (the instant one second before the edge is excluded, the
edge itself is kept); but a timestamp parsed under a naive format makes
the comparison raise TypeError, so such an entry is excluded regardless
of how recent it is. -/
theorem recency_filter_characterization (nowEpoch : Int) (daysLimit : Nat)
    (dt : PyDateTime) :
    Test.is_within_days_limit none nowEpoch daysLimit = .ok false ∧
    NewPy.is_within_last_two_days none nowEpoch = .ok false ∧
    (dt.tz.isSome = true →
      (Test.is_within_days_limit (some dt) nowEpoch daysLimit = .ok true ↔
        toUtcSeconds dt ≥ nowEpoch - (daysLimit : Int) * 86400) ∧
      (toUtcSeconds dt = nowEpoch - (daysLimit : Int) * 86400 - 1 →
        Test.is_within_days_limit (some dt) nowEpoch daysLimit = .ok false) ∧
      (toUtcSeconds dt = nowEpoch - (daysLimit : Int) * 86400 →
        Test.is_within_days_limit (some dt) nowEpoch daysLimit = .ok true) ∧
      (NewPy.is_within_last_two_days (some dt) nowEpoch = .ok true ↔
        toUtcSeconds dt ≥ nowEpoch - 2 * 86400)) ∧
    (dt.tz = none →
      Test.is_within_days_limit (some dt) nowEpoch daysLimit =
        .error naiveAwareMsg) := by
  refine ⟨rfl, rfl, ?_, ?_⟩
  · intro htz
    rcases Option.isSome_iff_exists.mp htz with ⟨off, hoff⟩
    refine ⟨?_, ?_, ?_, ?_⟩
    · simp [Test.is_within_days_limit, awareGE, hoff]
    · intro hb
      simp only [Test.is_within_days_limit, awareGE, hoff]
      have : ¬toUtcSeconds dt ≥ nowEpoch - (daysLimit : Int) * 86400 := by omega
      simp [this]
    · intro hb
      simp only [Test.is_within_days_limit, awareGE, hoff]
      have : toUtcSeconds dt ≥ nowEpoch - (daysLimit : Int) * 86400 := by omega
      simp [this]
    · simp [NewPy.is_within_last_two_days, awareGE, hoff]
  · intro htz
    simp [Test.is_within_days_limit, awareGE, htz]

/-- C3 (witness): a concrete aware timestamp exactly at the window
edge is kept, and a missing timestamp is excluded. -/
theorem recency_filter_witness :
    Test.is_within_days_limit (some ⟨2024, 1, 1, 0, 0, 0, some 0⟩)
      1704067200 1 = .ok true ∧
    Test.is_within_days_limit none 1704067200 1 = .ok false := by
  have h := recency_filter_characterization 1704067200 1
    ⟨2024, 1, 1, 0, 0, 0, some 0⟩
  exact ⟨((h.2.2.1 rfl).1).mpr (by decide), h.1⟩

/-- C3 (counterexample): the date string "2024-01-02 03:04:05" parses
(under the third, naive format) to a timestamp whose instant — read as
UTC, as the specification prescribes — is well inside a 2-day window
ending at now3, yet test.py's recency gate raises TypeError instead of
keeping the entry (the per-entry handler then skips it), so the claim's
"kept iff T >= N - W" fails. -/
theorem naive_timestamp_in_window_excluded :
    Test.parse_date "2024-01-02 03:04:05" = some dtNaive3 ∧
    toUtcSeconds dtNaive3 ≥ now3 - 2 * 86400 ∧
    Test.is_within_days_limit (some dtNaive3) now3 2 =
      .error naiveAwareMsg := by
  exact ⟨rfl, by decide, rfl⟩

/-- C6 (amended): claudenew.py's parse_date attaches UTC to a naive
dateutil result (fields untouched), leaves aware results alone, only
ever returns aware timestamps, and its results never raise in an
aware-cutoff comparison; test.py's parse_date, by contrast, returns
its naive results with no timezone attached and the comparison against
the aware cutoff raises TypeError. -/
theorem claudenew_parse_date_utc_attachment
    (du : String → Option PyDateTime) (s : String) (dt : PyDateTime)
    (hdu : du s = some dt) :
    (dt.tz = none → ClaudeNew.parse_date du s = some { dt with tz := some 0 }) ∧
    (dt.tz.isSome = true → ClaudeNew.parse_date du s = some dt) ∧
    (∀ d, ClaudeNew.parse_date du s = some d →
      d.tz.isSome = true ∧
      ∀ bound, (∃ b, awareGE d bound = .ok b) ∧ (∃ b2, awareLT d bound = .ok b2)) := by
  refine ⟨?_, ?_, ?_⟩
  · intro htz
    simp [ClaudeNew.parse_date, hdu, htz]
  · intro htz
    rcases Option.isSome_iff_exists.mp htz with ⟨off, hoff⟩
    simp [ClaudeNew.parse_date, hdu, hoff]
  · intro d hd
    simp only [ClaudeNew.parse_date, hdu] at hd
    rcases htz : dt.tz with _ | off
    · rw [htz] at hd
      cases hd
      exact ⟨rfl, fun bound => ⟨⟨_, rfl⟩, ⟨_, rfl⟩⟩⟩
    · rw [htz] at hd
      cases hd
      exact ⟨by simp [htz], fun bound =>
        ⟨⟨_, by unfold awareGE; rw [htz]⟩, ⟨_, by unfold awareLT; rw [htz]⟩⟩⟩

/-- C6 (witness): a naive dateutil result gets UTC attached, not
converted. -/
theorem claudenew_parse_date_witness :
    ClaudeNew.parse_date duNaive "2024-05-05 10:00:00" =
      some ⟨2024, 5, 5, 10, 0, 0, some 0⟩ := by
  have h := claudenew_parse_date_utc_attachment duNaive "2024-05-05 10:00:00"
    dtNaive6 rfl
  exact h.1 rfl

/-- C6 (counterexample): test.py's parse_date yields a timestamp with
no timezone attached for a string in its naive format, and the recency
comparison against the timezone-aware cutoff raises the naive/aware
TypeError — the claim's "treated as UTC" and "never raises" both fail
on test.py. -/
theorem test_parse_date_naive_comparison_raises :
    Test.parse_date "2024-05-05 10:00:00" = some dtNaive6 ∧
    dtNaive6.tz = none ∧
    Test.is_within_days_limit (some dtNaive6) (toUtcSeconds dtNaive6) 2 =
      .error naiveAwareMsg := ⟨rfl, rfl, rfl⟩

/-- C5: test.py's is_valid_feed returns true exactly when parsing the
URL yields at least one entry and a non-empty version attribute; on an
unreachable URL (parsing yields no entries) it returns false, and —
being a pure predicate re-evaluating feedparser.parse on each call,
with its try/except making it total — a second call on the same
unreachable URL returns false again without raising. -/
theorem validator_predicate_characterization
    (parseFeed : String → ParsedFeed) (url : String) :
    (Test.is_valid_feed parseFeed url = true ↔
      (parseFeed url).entries ≠ [] ∧
        ∃ v, (parseFeed url).version = some v ∧ v ≠ "") ∧
    ((parseFeed url).entries = [] →
      Test.is_valid_feed parseFeed url = false ∧
      Test.is_valid_feed parseFeed url = false) := by
  constructor
  · rcases hv : (parseFeed url).version with _ | v <;>
      simp [Test.is_valid_feed, hv, List.isEmpty_iff]
  · intro he
    constructor <;> simp [Test.is_valid_feed, he]

/-- C5 (witness): both calls on a concrete unreachable URL return
false. -/
theorem validator_witness :
    Test.is_valid_feed unreachableParse "http://unreachable.example/feed"
        = false ∧
    Test.is_valid_feed unreachableParse "http://unreachable.example/feed"
        = false :=
  (validator_predicate_characterization unreachableParse
    "http://unreachable.example/feed").2 rfl

/-- C4 (amended): a RequestException on the root fetch makes claude.py's
discover_feeds return the empty list instead of raising; but a feed
fetch that parses as malformed in qwenthing.py's fetch_rss_feed is not
recovered locally — it terminates the run via sys.exit(1). -/
theorem discovery_failure_recovered_empty
    (w : ClaudePy.World) (root : String) (err : String) (f : ParsedFeed)
    (hw : w.rootFetch = .error err) (hf : f.bozo = true) :
    ClaudePy.discover_feeds w root = [] ∧
    Qwen.fetch_rss_feed f = .error 1 := by
  constructor
  · unfold ClaudePy.discover_feeds
    rw [hw]
  · unfold Qwen.fetch_rss_feed
    rw [hf]
    rfl

/-- C4 (witness): concrete failed root fetch and concrete bozo feed. -/
theorem discovery_failure_witness :
    ClaudePy.discover_feeds failWorld "https://example.com" = [] ∧
    Qwen.fetch_rss_feed bozoFeed = .error 1 :=
  discovery_failure_recovered_empty failWorld "https://example.com"
    "connection error" bozoFeed rfl rfl

/-- C4 (counterexample): a concrete malformed feed makes
fetch_rss_feed exit the process with status 1 — the failure terminates
the run and propagates to its exit status, contrary to the claim that
every such failure is recovered locally into an empty result. -/
theorem qwen_feed_fetch_failure_exits :
    Qwen.fetch_rss_feed bozoFeed2 = .error 1 := rfl

/-- C7 (amended): test.py's date-field loop uses the first field in the
priority order published, updated, pubDate whose value is present AND
parses — a populated but unparseable field falls through to the next
one; parse_date tries its format list in the fixed source order
[RFC-822 with numeric offset, ISO-8601 with offset, space-separated
without offset, RFC-822 with timezone name], and the first pattern that
parses wins, with no later pattern tried. -/
theorem date_field_and_format_order (e : Entry) (s : String)
    (d : PyDateTime) (f : Fmt) (rest : List Fmt) :
    (Test.entryPubDate e =
      ((e.published.bind Test.parse_date).orElse fun _ =>
        ((e.updated.bind Test.parse_date).orElse fun _ =>
          e.pubDate.bind Test.parse_date))) ∧
    Test.parse_date s = Test.tryFormats Test.date_formats s ∧
    (parseFmt f s = some d → Test.tryFormats (f :: rest) s = some d) ∧
    (parseFmt f s = none →
      Test.tryFormats (f :: rest) s = Test.tryFormats rest s) := by
  refine ⟨?_, rfl, ?_, ?_⟩
  · simp only [Test.entryPubDate, Test.fieldLoop]
    rcases e.published with _ | s1 <;> rcases e.updated with _ | s2 <;>
      rcases e.pubDate with _ | s3
    · rfl
    · rcases h3 : Test.parse_date s3 with _ | d3 <;>
        simp [h3, Option.orElse, Option.bind]
    · rcases h2 : Test.parse_date s2 with _ | d2 <;>
        simp [h2, Option.orElse, Option.bind]
    · rcases h2 : Test.parse_date s2 with _ | d2 <;>
        rcases h3 : Test.parse_date s3 with _ | d3 <;>
        simp [h2, h3, Option.orElse, Option.bind]
    · rcases h1 : Test.parse_date s1 with _ | d1 <;>
        simp [h1, Option.orElse, Option.bind]
    · rcases h1 : Test.parse_date s1 with _ | d1 <;>
        rcases h3 : Test.parse_date s3 with _ | d3 <;>
        simp [h1, h3, Option.orElse, Option.bind]
    · rcases h1 : Test.parse_date s1 with _ | d1 <;>
        rcases h2 : Test.parse_date s2 with _ | d2 <;>
        simp [h1, h2, Option.orElse, Option.bind]
    · rcases h1 : Test.parse_date s1 with _ | d1 <;>
        rcases h2 : Test.parse_date s2 with _ | d2 <;>
        rcases h3 : Test.parse_date s3 with _ | d3 <;>
        simp [h1, h2, h3, Option.orElse, Option.bind]
  · intro h
    simp [Test.tryFormats, h]
  · intro h
    simp [Test.tryFormats, h]

/-- C7 (witness): the first format (RFC-822 with numeric offset)
parses this string, and the loop stops there. -/
theorem date_field_order_witness :
    Test.tryFormats [Fmt.rfc822z, Fmt.isoZ]
      "Mon, 01 Jan 2024 08:30:00 +0000" = some dt7 := by
  have h := date_field_and_format_order ex7
    "Mon, 01 Jan 2024 08:30:00 +0000" dt7 Fmt.rfc822z [Fmt.isoZ]
  exact h.2.2.1 rfl

/-- C7 (counterexample): an entry whose first populated field
(published = "garbage") parses under no format still gets a timestamp —
taken from the updated field — so "uses the first populated field" is
false of the code; and a string in ISO-8601-without-offset form (with
the T separator) parses under none of the four patterns, so the claim's
pattern list is also not the code's. -/
theorem first_populated_field_claim_fails :
    ex7.published = some "garbage" ∧
    Test.parse_date "garbage" = none ∧
    Test.entryPubDate ex7 = some dt7 ∧
    claimEntryPubDate ex7 = none ∧
    Test.parse_date "2024-01-01T12:00:00" = none :=
  ⟨rfl, rfl, rfl, rfl, rfl⟩

/-- C8 (amended): when an entry carries feed-declared inline HTML
content, the extraction step issues zero network fetches for the entry
in both cited variants — neither NewsPlease.from_url nor requests.get
runs; newest.py's extract_article_text returns that content with markup
stripped — each text fragment trimmed and the non-empty fragments
joined by single spaces (likewise for a non-empty content_encoded when
content is absent or empty) — while claude.py's process_feed stores the
inline content raw, entry.content[0].value, with no markup stripping
and no whitespace normalization. -/
theorem inline_content_short_circuits_no_fetch
    (w : Newest.World) (e : Entry) :
    (∀ h t, e.content = some (h :: t) →
      Newest.extract_article_text w e = (some (soupGetText " " h), 0)) ∧
    (∀ s, (e.content = none ∨ e.content = some []) →
      e.content_encoded = some s → s ≠ "" →
      Newest.extract_article_text w e = (some (soupGetText " " s), 0)) ∧
    (∀ h t fetchPage, e.content = some (h :: t) →
      ClaudePy.entryContent fetchPage e = .ok (h, 0)) := by
  refine ⟨?_, ?_, ?_⟩
  · intro h t hc
    simp [Newest.extract_article_text, hc]
  · intro s hc hce hs
    rcases hc with hc | hc <;>
      simp [Newest.extract_article_text, hc, hce, hs]
  · intro h t fetchPage hc
    simp [ClaudePy.entryContent, hc]

/-- C8 (witness): the design document's scenario — inline content
"<p>Hello <b>world</b></p>" yields "Hello world" with zero fetches in
newest.py, and claude.py stores the same inline content raw with zero
fetches. -/
theorem inline_content_witness :
    Newest.extract_article_text w8 e8 = (some "Hello world", 0) ∧
    ClaudePy.entryContent (fun _ => "") e8 =
      .ok ("<p>Hello <b>world</b></p>", 0) := by
  constructor
  · have h := (inline_content_short_circuits_no_fetch w8 e8).1
      "<p>Hello <b>world</b></p>" [] rfl
    rw [h]
    rfl
  · exact (inline_content_short_circuits_no_fetch w8 e8).2.2
      "<p>Hello <b>world</b></p>" [] (fun _ => "") rfl

/-- C8 (counterexample): claude.py's process_feed short-circuit (cited
lines 138-143) stores entry.content[0].value verbatim: for inline
content "<p>Hello <b>world</b></p>" the stored text still carries its
markup and differs from the markup-stripped, whitespace-normalized
text, so "returns that content with markup stripped and whitespace
normalized" is false of this cited variant (only the zero-fetch half
holds there). -/
theorem claude_inline_content_kept_raw :
    ClaudePy.entryContent (fun _ => "") e8 =
      .ok ("<p>Hello <b>world</b></p>", 0) ∧
    "<p>Hello <b>world</b></p>" ≠
      soupGetText " " "<p>Hello <b>world</b></p>" := by
  exact ⟨rfl, by decide⟩

/-- C9: the feed fetch in claude.py's process_feed (feedparser.parse,
line 125) is issued without a _respect_rate_limit call, although the
class documents rate_limit as the minimum time between requests.  With
rate_limit = 1 and the run starting at t = 100 (last_request_time
initialized to 0), the outbound request start times of one worker
processing a two-entry feed are [100, 100, 101, 102]: the feed fetch
starts 0 seconds after the root fetch, and the first three requests
span 1 second, not the ≥ 2 the claim requires. -/
theorem rate_limit_bypassed_on_feed_fetch :
    ClaudePy.run_requests 1 100 [false, false] = [100, 100, 101, 102] := by
  rfl
